import Mathlib

/-!
Verification of the tool-invocation gateway shared by the three MCP sports
servers (F1 / MLB / NBA) in this repository.

The embedding below translates the relevant Python source into Lean:

* `check_rate_limit` embeds `check_rate_limit` from
  `f1-mcp-server/src/f1_mcp_server/server.py` (lines 50-70).  Wall-clock
  instants (`time.time()` floats) are modelled as rationals.
* `json_serial`, `validate_year` and the per-tool adapter functions embed
  `f1-mcp-server/src/f1_mcp_server/f1_data.py`.
* `f1_tool` embeds the dispatch closure `f1_tool` of the F1 server.
* `MlbServer.get_daily_schedule`, `NbaServer.get_daily_schedule` and
  `NbaServer.get_injuries` embed the corresponding `@mcp.tool()` handlers of
  the MLB and NBA servers; an `Except.error` result models an exception
  propagating (re-raised) out of the handler, an `Except.ok` result models a
  returned payload.

Backend calls (fastf1 / SportRadar HTTP) are abstracted as oracle parameters:
an `Except String _` value stands for the outcome of the external fetch.
-/

/-! ## Rate limiter (`server.py`, lines 45-70) -/

/-- `MAX_REQUESTS_PER_MINUTE = 60` (module constant of `server.py`). -/
def MAX_REQUESTS_PER_MINUTE : Nat := 60

/-- Embedding of `check_rate_limit()`: prune all timestamps `ts` with
`current_time - ts >= 60`, then deny if the remaining count is at least the
budget, otherwise append the current timestamp and admit.  Returns the
admission flag together with the new value of the module-global
`request_timestamps` list. -/
def check_rate_limit (now : ℚ) (window : List ℚ) : Bool × List ℚ :=
  let pruned := window.filter (fun ts => decide (now - ts < 60))
  if MAX_REQUESTS_PER_MINUTE ≤ pruned.length then
    (false, pruned)
  else
    (true, pruned ++ [now])

/-- Run a sequence of admission checks at the given instants, starting from
the given window; returns the list of admission outcomes and the final
window. -/
def runChecks : List ℚ → List ℚ → List Bool × List ℚ
  | [], w => ([], w)
  | t :: ts, w =>
    let r := check_rate_limit t w
    let rest := runChecks ts r.2
    (r.1 :: rest.1, rest.2)

/-! ## Python value model and the Value Normalizer
(`f1_data.py`, `json_serial`, lines 45-63) -/

/-- A Python float: either a finite value (modelled as an exact rational) or
the IEEE NaN sentinel.  Infinities play no role in the claims and are
omitted. -/
inductive PyFloat where
  | finite (q : ℚ)
  | nan
deriving DecidableEq

/-- The Python values that can reach `json_serial` or a tool argument:
`None`, booleans, ints, floats, the numpy fixed-width numeric types
(`np.integer` / `np.floating`), strings, `datetime.datetime` and
`pd.Timestamp` (carried by their ISO-8601 rendering), lists, dicts with
string keys, and any other object (carried by its `str()` rendering, with
`pd.isna` false). -/
inductive PyVal where
  | none
  | bool (b : Bool)
  | int (n : ℤ)
  | float (f : PyFloat)
  | npInt (n : ℤ)
  | npFloat (f : PyFloat)
  | str (s : String)
  | datetime (iso : String)
  | timestamp (iso : String)
  | list (xs : List PyVal)
  | dict (xs : List (String × PyVal))
  | obj (rendering : String)

/-- `True` iff the value is a Python list (or array: the list-like case). -/
def PyVal.isList : PyVal → Bool
  | .list _ => true
  | _ => false

/-- Python `str(·)`.  Exact for `None`, booleans, integers and strings (the
cases the claims evaluate); renderings of floats, containers, datetimes and
foreign objects are abstracted (Python would use `repr` of elements inside
containers and platform float formatting). -/
def py_str : PyVal → String
  | .none => "None"
  | .bool true => "True"
  | .bool false => "False"
  | .int n => toString n
  | .float (.finite q) => toString q
  | .float .nan => "nan"
  | .npInt n => toString n
  | .npFloat (.finite q) => toString q
  | .npFloat .nan => "nan"
  | .str s => s
  | .datetime iso => iso
  | .timestamp iso => iso
  | .list _ => "[...]"
  | .dict _ => "\x7b...\x7d"
  | .obj rendering => rendering

/-- `bool(pd.isna(obj))` as evaluated by the `if pd.isna(obj) or ...` test in
`json_serial`.  On a scalar, `pd.isna` is `True` exactly for `None` and
float NaN.  On a list (or array) it returns an elementwise boolean array:
taking its truth value raises `ValueError` unless the array has exactly one
element, in which case the truth value is that single element. -/
def pd_isna_bool : PyVal → Except String Bool
  | .none => .ok true
  | .float .nan => .ok true
  | .npFloat .nan => .ok true
  | .list [x] => pd_isna_bool x
  | .list _ =>
      .error "The truth value of an array with more than one element is ambiguous. Use a.any() or a.all()"
  | _ => .ok false

/-- The JSON-safe scalars `json_serial` can return (`str | int | float |
None` per its annotation).  Note that a `float` here may still be NaN. -/
inductive JsonVal where
  | str (s : String)
  | int (n : ℤ)
  | float (f : PyFloat)
  | none
deriving DecidableEq

/-- Embedding of `json_serial` (`f1_data.py`, lines 45-63), with its checks
in source order: datetime/Timestamp first, then `np.integer`, then
`np.floating` (narrowed with `float(obj)` — NaN included), then the
`pd.isna(obj) or obj is None` test, and finally the `str(obj)` fallback.
An `Except.error` models the call raising. -/
def json_serial (obj : PyVal) : Except String JsonVal :=
  match obj with
  | .datetime iso => .ok (.str iso)
  | .timestamp iso => .ok (.str iso)
  | .npInt n => .ok (.int n)
  | .npFloat f => .ok (.float f)
  | v =>
    match pd_isna_bool v with
    | .error e => .error e
    | .ok true => .ok .none
    | .ok false => .ok (.str (py_str v))

/-- `True` iff the computation returned instead of raising. -/
def exceptRuns {α β : Type} : Except α β → Bool
  | .ok _ => true
  | .error _ => false

/-- The row-normalization loop of `get_event_schedule` (`f1_data.py`, lines
107-116): `clean_dict = {k: json_serial(v) for k, v in event_dict.items()}`,
applied fieldwise to one record. -/
def normalizeRow (row : List (String × PyVal)) :
    Except String (List (String × JsonVal)) :=
  row.mapM (fun kv => (json_serial kv.2).map (fun r => (kv.1, r)))


/-! ## F1 server dispatch (`server.py`, `f1_tool`, lines 116-272) and the
`f1_data.py` adapters it calls.

Backend interactions (fastf1 session loading, Ergast queries) are abstracted
as one oracle of type `Except String Unit` per tool: `.ok` means the fetch
and formatting succeeded, `.error e` means it raised with message `e`
(including domain conditions such as "No laps found for driver X", which the
adapters turn into error dictionaries themselves). -/

/-- Truncation toward zero, as Python `int()` applied to a float. -/
def ratTrunc (q : ℚ) : ℤ :=
  if q < 0 then -(Int.floor (-q)) else Int.floor q

/-- Parse a string as Python `int(s)` does: optional surrounding whitespace,
optional sign, then decimal digits.  (Underscore digit grouping is not
modelled.) -/
def parsePyInt (s : String) : Option ℤ :=
  let core : List Char → Option ℕ := fun ds =>
    if ds ≠ [] ∧ ds.all Char.isDigit then
      some (ds.foldl (fun acc c => acc * 10 + (c.toNat - 48)) 0)
    else
      Option.none
  let trimmed :=
    ((s.toList.dropWhile Char.isWhitespace).reverse.dropWhile
      Char.isWhitespace).reverse
  match trimmed with
  | '-' :: rest => (core rest).map (fun n => -(n : ℤ))
  | '+' :: rest => (core rest).map (fun n => (n : ℤ))
  | cs => (core cs).map (fun n => (n : ℤ))

/-- Python `int(v)` on a tool-argument value; `.error` models the
`ValueError`/`TypeError` it raises on non-numeric input. -/
def py_int : PyVal → Except String ℤ
  | .int n => .ok n
  | .bool b => .ok (if b then 1 else 0)
  | .npInt n => .ok n
  | .float (.finite q) => .ok (ratTrunc q)
  | .npFloat (.finite q) => .ok (ratTrunc q)
  | .float .nan => .error "cannot convert float NaN to integer"
  | .npFloat .nan => .error "cannot convert float NaN to integer"
  | .str s =>
    match parsePyInt s with
    | some n => .ok n
    | Option.none => .error ("invalid literal for int() with base 10: " ++ s)
  | _ => .error "int() argument must be a string, a bytes-like object or a real number, not this type"

/-- The raw argument mapping of one invocation. -/
def ArgMap : Type := List (String × PyVal)

/-- The session names accepted by the server and by
`get_session_results` (`valid_sessions` in both files). -/
def valid_sessions : List String :=
  ["Race", "Qualifying", "Sprint", "FP1", "FP2", "FP3", "SprintQualifying"]

/-- Embedding of `validate_year` (`f1_data.py`, lines 66-87) as invoked by
the adapters: the server always hands it an already-converted `int`, so the
inner `int(year)` cannot fail; a year outside `[1950, currentYear + 1]`
raises, and the inner range message is replaced by the outer
`"Invalid year format: ..."` one (the inner `ValueError` is caught by the
same `except` clause).  `currentYear` stands for `datetime.now().year`. -/
def validate_year (currentYear year : ℤ) : Except String ℤ :=
  if year < 1950 ∨ year > currentYear + 1 then
    .error ("Invalid year format: " ++ toString year)
  else
    .ok year

/-- Outcome of one `f1_data` adapter call: the status/message fields of the
returned dictionary (`data` omitted — its normalization is covered by
`json_serial`), plus whether a backend fetch was performed. -/
structure F1Res where
  status : String
  message : String
  fetched : Bool
deriving DecidableEq

/-- `get_event_schedule` (`f1_data.py`, lines 90-122): validates the year
before fetching; every exception is caught and prefixed. -/
def get_event_schedule (currentYear year : ℤ)
    (fetch : Except String Unit) : F1Res :=
  match validate_year currentYear year with
  | .error e => ⟨"error", "Failed to retrieve event schedule: " ++ e, false⟩
  | .ok _ =>
    match fetch with
    | .error e => ⟨"error", "Failed to retrieve event schedule: " ++ e, true⟩
    | .ok _ => ⟨"success", "", true⟩

/-- `get_event_info` (`f1_data.py`, lines 125-165): validates the year, then
rejects an empty identifier (the only falsy string), then fetches. -/
def get_event_info (currentYear year : ℤ) (identifier : String)
    (fetch : Except String Unit) : F1Res :=
  match validate_year currentYear year with
  | .error e => ⟨"error", "Failed to retrieve event information: " ++ e, false⟩
  | .ok _ =>
    if identifier = "" then
      ⟨"error", "Failed to retrieve event information: Invalid event identifier", false⟩
    else
      match fetch with
      | .error e => ⟨"error", "Failed to retrieve event information: " ++ e, true⟩
      | .ok _ => ⟨"success", "", true⟩

/-- `get_session_results` (`f1_data.py`, lines 168-231): validates the year
and the session name before fetching. -/
def get_session_results (currentYear year : ℤ)
    (event_identifier session_name : String)
    (fetch : Except String Unit) : F1Res :=
  match validate_year currentYear year with
  | .error e => ⟨"error", "Failed to retrieve session results: " ++ e, false⟩
  | .ok _ =>
    if session_name ∈ valid_sessions then
      match fetch with
      | .error e => ⟨"error", "Failed to retrieve session results: " ++ e, true⟩
      | .ok _ => ⟨"success", "", true⟩
    else
      ⟨"error",
        "Failed to retrieve session results: Invalid session name. Must be one of: "
          ++ String.intercalate ", " valid_sessions,
        false⟩

/-- `get_driver_info` (`f1_data.py`, lines 234-275): validates the year,
then fetches. -/
def get_driver_info (currentYear year : ℤ)
    (event_identifier session_name driver_identifier : String)
    (fetch : Except String Unit) : F1Res :=
  match validate_year currentYear year with
  | .error e => ⟨"error", "Failed to retrieve driver information: " ++ e, false⟩
  | .ok _ =>
    match fetch with
    | .error e => ⟨"error", "Failed to retrieve driver information: " ++ e, true⟩
    | .ok _ => ⟨"success", "", true⟩

/-- `analyze_driver_performance` (`f1_data.py`, lines 278-372): validates
the year, then fetches; its `except` clause returns `str(e)` unprefixed. -/
def analyze_driver_performance (currentYear year : ℤ)
    (event_identifier session_name driver_identifier : String)
    (fetch : Except String Unit) : F1Res :=
  match validate_year currentYear year with
  | .error e => ⟨"error", e, false⟩
  | .ok _ =>
    match fetch with
    | .error e => ⟨"error", e, true⟩
    | .ok _ => ⟨"success", "", true⟩

/-- `compare_drivers` (`f1_data.py`, lines 375-440): performs only
`int(year)` (always an int here) — no `validate_year` — and fetches. -/
def compare_drivers (year : ℤ) (event_identifier session_name drivers : String)
    (fetch : Except String Unit) : F1Res :=
  match fetch with
  | .error e => ⟨"error", e, true⟩
  | .ok _ => ⟨"success", "", true⟩

/-- `get_telemetry` (`f1_data.py`, lines 443-519): performs only
`int(year)` — no `validate_year` — and fetches. -/
def get_telemetry (year : ℤ)
    (event_identifier session_name driver_identifier : String)
    (lap_number : Option ℤ) (fetch : Except String Unit) : F1Res :=
  match fetch with
  | .error e => ⟨"error", e, true⟩
  | .ok _ => ⟨"success", "", true⟩

/-- `get_championship_standings` (`f1_data.py`, lines 522-580): performs
only `int(year)` — no `validate_year` — and fetches; its `except` clause
carries a copy-pasted "Failed to analyze driver performance" prefix. -/
def get_championship_standings (year : ℤ) (round_num : Option ℤ)
    (fetch : Except String Unit) : F1Res :=
  match fetch with
  | .error e => ⟨"error", "Failed to analyze driver performance: " ++ e, true⟩
  | .ok _ => ⟨"success", "", true⟩

/-- One abstract backend outcome per tool. -/
structure Backend where
  schedule : Except String Unit
  eventInfo : Except String Unit
  sessionResults : Except String Unit
  driverInfo : Except String Unit
  performance : Except String Unit
  comparison : Except String Unit
  telemetry : Except String Unit
  standings : Except String Unit

/-- A backend on which every fetch succeeds. -/
def bkOk : Backend :=
  ⟨.ok (), .ok (), .ok (), .ok (), .ok (), .ok (), .ok (), .ok ()⟩

/-- The common year sanitization at the top of `f1_tool`'s `try` block
(`server.py`, lines 150-158): if a `year` argument is present it is
`int`-converted and range-checked against `[1950, 2100]`; any failure —
conversion or range — is re-raised as `"Invalid year format: ..."` with the
original value rendered by `str`.  Returns the optional sanitized year. -/
def sanitizeYear (args : ArgMap) : Except String (Option ℤ) :=
  match List.lookup "year" args with
  | Option.none => .ok Option.none
  | some v =>
    match py_int v with
    | .error _ => .error ("Invalid year format: " ++ py_str v)
    | .ok y =>
      if 1950 ≤ y ∧ y ≤ 2100 then .ok (some y)
      else .error ("Invalid year format: " ++ py_str v)

/-- `sanitized_args["year"]` where the key may be absent: a missing year
raises `KeyError('year')`, whose `str()` is `'year'` (in quotes). -/
def requireSanitizedYear (yearOpt : Option ℤ) : Except String ℤ :=
  match yearOpt with
  | some y => .ok y
  | Option.none => .error "\u0027year\u0027"

/-- `arguments[k]` where the key may be absent (`KeyError`). -/
def requireArg (args : ArgMap) (k : String) : Except String PyVal :=
  match List.lookup k args with
  | some v => .ok v
  | Option.none => .error ("\u0027" ++ k ++ "\u0027")

/-- The `lap_number` pre-validation of the `get_telemetry` branch
(`server.py`, lines 225-232): absent or `None` means "fastest lap";
otherwise `int()`-convert (failure echoes the original value) and require
positivity (failure echoes the converted integer). -/
def parseLapNumber (args : ArgMap) : Except String (Option ℤ) :=
  match List.lookup "lap_number" args with
  | Option.none => .ok Option.none
  | some PyVal.none => .ok Option.none
  | some v =>
    match py_int v with
    | .error _ => .error ("Invalid lap number: " ++ py_str v)
    | .ok n =>
      if n ≤ 0 then .error ("Invalid lap number: " ++ toString n)
      else .ok (some n)

/-- The `round_num` pre-validation of the `get_championship_standings`
branch (`server.py`, lines 242-249). -/
def parseRoundNum (args : ArgMap) : Except String (Option ℤ) :=
  match List.lookup "round_num" args with
  | Option.none => .ok Option.none
  | some PyVal.none => .ok Option.none
  | some v =>
    match py_int v with
    | .error _ => .error ("Invalid round number: " ++ py_str v)
    | .ok n =>
      if n ≤ 0 then .error ("Invalid round number: " ++ toString n)
      else .ok (some n)

/-- The body of `f1_tool`'s `try` block (`server.py`, lines 145-257): year
sanitization, then the tool-name conditional chain with its per-branch
argument checks, each branch calling its adapter.  An `Except.error` is an
exception reaching the `except` clause; since every adapter catches its own
exceptions, a body-level error always happens before any backend fetch. -/
def f1_body (currentYear : ℤ) (bk : Backend) (name : String)
    (args : ArgMap) : Except String F1Res :=
  match sanitizeYear args with
  | .error e => .error e
  | .ok yearOpt =>
    if name = "get_event_schedule" then
      match requireSanitizedYear yearOpt with
      | .error e => .error e
      | .ok y => .ok (get_event_schedule currentYear y bk.schedule)
    else if name = "get_event_info" then
      match List.lookup "identifier" args with
      | Option.none => .error "Missing required argument: identifier"
      | some v =>
        match requireSanitizedYear yearOpt with
        | .error e => .error e
        | .ok y => .ok (get_event_info currentYear y (py_str v) bk.eventInfo)
    else if name = "get_session_results" then
      match List.lookup "event_identifier" args with
      | Option.none => .error "Missing required argument: event_identifier"
      | some ev =>
        match List.lookup "session_name" args with
        | Option.none => .error "Missing required argument: session_name"
        | some sn =>
          if py_str sn ∈ valid_sessions then
            match requireSanitizedYear yearOpt with
            | .error e => .error e
            | .ok y =>
              .ok (get_session_results currentYear y (py_str ev) (py_str sn)
                    bk.sessionResults)
          else
            .error ("Invalid session_name: must be one of "
              ++ String.intercalate ", " valid_sessions)
    else if name = "get_driver_info" then
      match requireSanitizedYear yearOpt with
      | .error e => .error e
      | .ok y =>
        match requireArg args "event_identifier" with
        | .error e => .error e
        | .ok ev =>
          match requireArg args "session_name" with
          | .error e => .error e
          | .ok sn =>
            match requireArg args "driver_identifier" with
            | .error e => .error e
            | .ok dr =>
              .ok (get_driver_info currentYear y (py_str ev) (py_str sn)
                    (py_str dr) bk.driverInfo)
    else if name = "analyze_driver_performance" then
      match requireSanitizedYear yearOpt with
      | .error e => .error e
      | .ok y =>
        match requireArg args "event_identifier" with
        | .error e => .error e
        | .ok ev =>
          match requireArg args "session_name" with
          | .error e => .error e
          | .ok sn =>
            match requireArg args "driver_identifier" with
            | .error e => .error e
            | .ok dr =>
              .ok (analyze_driver_performance currentYear y (py_str ev)
                    (py_str sn) (py_str dr) bk.performance)
    else if name = "compare_drivers" then
      match requireSanitizedYear yearOpt with
      | .error e => .error e
      | .ok y =>
        match requireArg args "event_identifier" with
        | .error e => .error e
        | .ok ev =>
          match requireArg args "session_name" with
          | .error e => .error e
          | .ok sn =>
            match requireArg args "drivers" with
            | .error e => .error e
            | .ok dr =>
              .ok (compare_drivers y (py_str ev) (py_str sn) (py_str dr)
                    bk.comparison)
    else if name = "get_telemetry" then
      match parseLapNumber args with
      | .error e => .error e
      | .ok lapOpt =>
        match requireSanitizedYear yearOpt with
        | .error e => .error e
        | .ok y =>
          match requireArg args "event_identifier" with
          | .error e => .error e
          | .ok ev =>
            match requireArg args "session_name" with
            | .error e => .error e
            | .ok sn =>
              match requireArg args "driver_identifier" with
              | .error e => .error e
              | .ok dr =>
                .ok (get_telemetry y (py_str ev) (py_str sn) (py_str dr)
                      lapOpt bk.telemetry)
    else if name = "get_championship_standings" then
      match parseRoundNum args with
      | .error e => .error e
      | .ok roundOpt =>
        match requireSanitizedYear yearOpt with
        | .error e => .error e
        | .ok y => .ok (get_championship_standings y roundOpt bk.standings)
    else
      .error ("Unknown tool: " ++ name)

/-- The fixed redacted message of the `except` clause (`server.py`,
line 265). -/
def GENERIC_ERROR : String := "An error occurred while processing your request"

/-- The envelope and state produced by one `f1_tool` invocation: the
status/message of the JSON text returned, whether any backend fetch
happened, and the new value of the rate window. -/
structure ServerOut where
  status : String
  message : String
  fetched : Bool
  window : List ℚ
deriving DecidableEq

/-- Embedding of the `f1_tool` dispatch closure (`server.py`, lines
116-272): rate-limit admission first (a denial returns the rate-limit error
envelope and never reaches validation or dispatch); then the `try` body;
an exception is converted to an error envelope whose message is the
underlying `"Error: ..."` detail only when the process log level
(`F1_MCP_SERVER_LOG_LEVEL`) is `DEBUG`, and the fixed generic message
otherwise. -/
def f1_tool (logLevel : String) (currentYear : ℤ) (bk : Backend)
    (name : String) (args : ArgMap) (now : ℚ) (window : List ℚ) : ServerOut :=
  let rl := check_rate_limit now window
  if rl.1 then
    match f1_body currentYear bk name args with
    | .ok r => ⟨r.status, r.message, r.fetched, rl.2⟩
    | .error e =>
      ⟨"error",
        if logLevel = "DEBUG" then "Error: " ++ e else GENERIC_ERROR,
        false, rl.2⟩
  else
    ⟨"error", "Rate limit exceeded. Please try again later.", false, rl.2⟩

/-- The tool names registered in the dispatch chain / tool listing. -/
def registryNames : List String :=
  ["get_event_schedule", "get_event_info", "get_session_results",
   "get_driver_info", "analyze_driver_performance", "compare_drivers",
   "get_telemetry", "get_championship_standings"]

/-- The year-argument slice of an argument map is well-formed: either absent,
or convertible to an `int` that passes the server's `[1950, 2100]` range
check. -/
def yearArgOk (args : ArgMap) : Prop :=
  match List.lookup "year" args with
  | Option.none => True
  | some v => ∃ y, py_int v = Except.ok y ∧ 1950 ≤ y ∧ y ≤ 2100

/-- A fully-populated argument map (every key any tool requires) with the
given year — used to exercise each tool's year handling. -/
def baseArgs (y : ℤ) : ArgMap :=
  [("year", PyVal.int y), ("identifier", PyVal.str "Monaco"),
   ("event_identifier", PyVal.str "Monaco"),
   ("session_name", PyVal.str "Race"),
   ("driver_identifier", PyVal.str "HAM"),
   ("drivers", PyVal.str "HAM,VER")]

/-- The tools whose adapters run `validate_year` before any backend fetch. -/
def validatingYearTools : List String :=
  ["get_event_schedule", "get_event_info", "get_session_results",
   "get_driver_info", "analyze_driver_performance"]

/-- The tools whose adapters convert the year with `int(year)` only and go
straight to the backend fetch. -/
def fetchFirstYearTools : List String :=
  ["compare_drivers", "get_telemetry", "get_championship_standings"]

/-! ## MLB server (`mlb-sportradar-mcp-main/src/mlb_sportradar_mcp/server.py`)
and NBA server (`nba-sportradar-mcp-main/src/nba_sportradar_mcp/server.py`).

Each handler issues one HTTP GET (modelled by the `upstream` oracle, applied
to the request path) inside a `try` block whose `except` clause logs and
**re-raises**; an `Except.error` in the result position therefore models an
exception propagating out of the tool handler.  The returned pair carries the
request path actually issued together with the outcome. -/

namespace MlbServer

/-- The request path `f"/en/games/{year}/{month}/{day}/schedule.json"`. -/
def schedulePath (year month day : String) : String :=
  "/en/games/" ++ year ++ "/" ++ month ++ "/" ++ day ++ "/schedule.json"

/-- `get_daily_schedule` (MLB `server.py`, lines 108-125): fetch, return
`response.json()` on success; on any exception, log and re-raise. -/
def get_daily_schedule (year month day : String)
    (upstream : String → Except String String) :
    String × Except String String :=
  let path := schedulePath year month day
  (path,
    match upstream path with
    | .ok body => .ok body
    | .error e => .error e)

end MlbServer

namespace NbaServer

/-- The `data["league"]` sub-object of an upstream schedule response. -/
structure League where
  id : String
  «alias» : String
  name : String
deriving DecidableEq

/-- An upstream daily-schedule payload: the optional league header plus the
remainder of the document (opaque). -/
structure ScheduleData where
  league? : Option League
  games : String
deriving DecidableEq

/-- The fixed league id the handler forces on mismatching data. -/
def NBA_LEAGUE_ID : String := "4353138d-4c22-4396-95d8-5f587d2df25c"

/-- The request path `f"/en/games/{year}/{month}/{day}/schedule.json"`. -/
def schedulePath (year month day : String) : String :=
  "/en/games/" ++ year ++ "/" ++ month ++ "/" ++ day ++ "/schedule.json"

/-- `get_daily_schedule` (NBA `server.py`, lines 100-127): fetch; if the
payload carries a league whose alias is not `"NBA"`, log an error but
*force* the alias, name and id to the fixed NBA values and return the
payload as a success; on any exception, log and re-raise. -/
def get_daily_schedule (year month day : String)
    (upstream : String → Except String ScheduleData) :
    String × Except String ScheduleData :=
  let path := schedulePath year month day
  (path,
    match upstream path with
    | .error e => .error e
    | .ok data =>
      match data.league? with
      | some lg =>
        if lg.«alias» = "NBA" then .ok data
        else .ok { data with league? := some ⟨NBA_LEAGUE_ID, "NBA", "NBA"⟩ }
      | Option.none => .ok data)

/-- `get_injuries` (NBA `server.py`, lines 264-274): the declared
`random_string` parameter is never read; the handler always issues the same
request and returns its body, re-raising on failure. -/
def get_injuries (random_string : String)
    (upstream : String → Except String String) :
    String × Except String String :=
  let path := "/en/league/injuries.json"
  (path,
    match upstream path with
    | .ok body => .ok body
    | .error e => .error e)

end NbaServer

theorem runChecks_nil (w : List ℚ) : runChecks [] w = ([], w) := rfl

theorem runChecks_cons (t : ℚ) (ts : List ℚ) (w : List ℚ) :
    runChecks (t :: ts) w =
      ((check_rate_limit t w).1 :: (runChecks ts (check_rate_limit t w).2).1,
       (runChecks ts (check_rate_limit t w).2).2) := rfl

theorem runChecks_append (xs ys : List ℚ) (w : List ℚ) :
    runChecks (xs ++ ys) w =
      ((runChecks xs w).1 ++ (runChecks ys (runChecks xs w).2).1,
       (runChecks ys (runChecks xs w).2).2) := by
  induction xs generalizing w with
  | nil => simp [runChecks]
  | cons x xs ih => simp [runChecks, ih]

/-- Every element of the window immediately after a check is within the
trailing 60-second interval of that check's instant. -/
theorem check_rate_limit_mem (now : ℚ) (w : List ℚ) :
    ∀ a ∈ (check_rate_limit now w).2, now - a < 60 := by
  intro a ha
  unfold check_rate_limit at ha
  by_cases h : MAX_REQUESTS_PER_MINUTE ≤ (w.filter (fun ts => decide (now - ts < 60))).length
  · simp only [h, if_true] at ha
    have := List.of_mem_filter ha
    simpa using this
  · simp only [h, if_false] at ha
    rcases List.mem_append.mp ha with h1 | h2
    · have := List.of_mem_filter h1
      simpa using this
    · have : a = now := by simpa using h2
      subst this
      norm_num

/-- A single check never pushes the window length above the budget. -/
theorem check_rate_limit_len (now : ℚ) (w : List ℚ)
    (h : w.length ≤ MAX_REQUESTS_PER_MINUTE) :
    (check_rate_limit now w).2.length ≤ MAX_REQUESTS_PER_MINUTE := by
  unfold check_rate_limit
  have hp : (w.filter (fun ts => decide (now - ts < 60))).length ≤ w.length :=
    List.length_filter_le _ _
  by_cases hb : MAX_REQUESTS_PER_MINUTE ≤ (w.filter (fun ts => decide (now - ts < 60))).length
  · simp only [hb, if_true]
    omega
  · simp only [hb, if_false, List.length_append, List.length_singleton]
    omega

/-- The window length stays within the budget along any run that starts
within the budget. -/
theorem runChecks_len (ts : List ℚ) (w : List ℚ)
    (h : w.length ≤ MAX_REQUESTS_PER_MINUTE) :
    (runChecks ts w).2.length ≤ MAX_REQUESTS_PER_MINUTE := by
  induction ts generalizing w with
  | nil => simpa [runChecks]
  | cons t ts ih =>
    simp only [runChecks]
    exact ih _ (check_rate_limit_len t w h)

/-- Core computation for runs whose instants all lie in one interval
`[t0, t0+1)`: no timestamp is ever pruned, so exactly the first
`60 - |w|` checks are admitted and the admitted instants are appended in
order. -/
theorem runChecks_interval (t0 : ℚ) (ts : List ℚ) :
    ∀ (w : List ℚ),
      (∀ a ∈ w, t0 ≤ a ∧ a < t0 + 1) →
      (∀ a ∈ ts, t0 ≤ a ∧ a < t0 + 1) →
      runChecks ts w =
        (List.replicate (min ts.length (MAX_REQUESTS_PER_MINUTE - w.length)) true
           ++ List.replicate (ts.length - (MAX_REQUESTS_PER_MINUTE - w.length)) false,
         w ++ ts.take (MAX_REQUESTS_PER_MINUTE - w.length)) := by
  induction ts with
  | nil => intro w hw hts; simp [runChecks]
  | cons t ts ih =>
    intro w hw hts
    have ht : t0 ≤ t ∧ t < t0 + 1 := hts t (List.mem_cons_self t ts)
    have hts' : ∀ a ∈ ts, t0 ≤ a ∧ a < t0 + 1 := fun a ha =>
      hts a (List.mem_cons_of_mem t ha)
    have hfilter : w.filter (fun ts => decide (t - ts < 60)) = w := by
      apply List.filter_eq_self.mpr
      intro a ha
      have ha' := hw a ha
      have : t - a < 60 := by
        have h1 := ha'.1
        have h2 := ht.2
        linarith
      simpa using this
    by_cases hlen : MAX_REQUESTS_PER_MINUTE ≤ w.length
    · -- window full: the check is denied and the window is unchanged
      have hstep : check_rate_limit t w = (false, w) := by
        unfold check_rate_limit
        simp only [hfilter]
        rw [if_pos hlen]
      rw [runChecks_cons, hstep]
      rw [ih w hw hts']
      have hz : MAX_REQUESTS_PER_MINUTE - w.length = 0 := by omega
      simp [hz, List.replicate_succ]
    · -- room in the window: the check is admitted and `t` is appended
      have hstep : check_rate_limit t w = (true, w ++ [t]) := by
        unfold check_rate_limit
        simp only [hfilter]
        rw [if_neg hlen]
      rw [runChecks_cons, hstep]
      have hw' : ∀ a ∈ w ++ [t], t0 ≤ a ∧ a < t0 + 1 := by
        intro a ha
        rcases List.mem_append.mp ha with h1 | h2
        · exact hw a h1
        · have : a = t := by simpa using h2
          subst this; exact ht
      rw [ih (w ++ [t]) hw' hts']
      have hlen' : (w ++ [t]).length = w.length + 1 := by
        simp
      rw [hlen']
      have e1 : min (ts.length + 1) (MAX_REQUESTS_PER_MINUTE - w.length)
          = min ts.length (MAX_REQUESTS_PER_MINUTE - (w.length + 1)) + 1 := by
        omega
      have e2 : ts.length + 1 - (MAX_REQUESTS_PER_MINUTE - w.length)
          = ts.length - (MAX_REQUESTS_PER_MINUTE - (w.length + 1)) := by
        omega
      have e3 : MAX_REQUESTS_PER_MINUTE - w.length
          = (MAX_REQUESTS_PER_MINUTE - (w.length + 1)) + 1 := by
        omega
      simp only [List.length_cons]
      rw [e1, e2, e3]
      simp [List.replicate_succ, List.take_succ_cons, List.append_assoc]

/-- C1: starting from an empty rate window with budget 60, any 61 admission
checks within one second admit exactly the first 60 and deny the 61st; the
denied check records no timestamp (the window is exactly the first 60
instants); and a later check at least 61 seconds after the start of the
burst is admitted again. -/
theorem claim_C1_rate_limit_burst (ts : List ℚ) (t0 t' : ℚ)
    (hlen : ts.length = 61)
    (hwin : ∀ a ∈ ts, t0 ≤ a ∧ a < t0 + 1)
    (hadv : t0 + 61 ≤ t') :
    (runChecks ts []).1 = List.replicate 60 true ++ [false] ∧
    (runChecks ts []).2 = ts.take 60 ∧
    (check_rate_limit t' (runChecks ts []).2).1 = true := by
  have hrun := runChecks_interval t0 ts [] (by simp) hwin
  rw [hlen] at hrun
  have h1 : (runChecks ts []).1 = List.replicate 60 true ++ [false] := by
    rw [hrun]
    norm_num [MAX_REQUESTS_PER_MINUTE]
  have h2 : (runChecks ts []).2 = ts.take 60 := by
    rw [hrun]
    norm_num [MAX_REQUESTS_PER_MINUTE]
  refine ⟨h1, h2, ?_⟩
  rw [h2]
  have hempty : (ts.take 60).filter (fun a => decide (t' - a < 60)) = [] := by
    apply List.filter_eq_nil_iff.mpr
    intro a ha
    have ha' := hwin a (List.mem_of_mem_take ha)
    have : ¬ t' - a < 60 := by
      have := ha'.2
      linarith
    simpa using this
  unfold check_rate_limit
  rw [hempty]
  simp [MAX_REQUESTS_PER_MINUTE]

/-- Witness for C1 at a concrete burst: 61 checks all at instant 0, with the
follow-up check at instant 61. -/
theorem claim_C1_rate_limit_burst_witness :
    (List.replicate 61 (0 : ℚ)).length = 61 ∧
    (∀ a ∈ List.replicate 61 (0 : ℚ), (0 : ℚ) ≤ a ∧ a < 0 + 1) ∧
    (0 : ℚ) + 61 ≤ 61 ∧
    ((runChecks (List.replicate 61 (0 : ℚ)) []).1
        = List.replicate 60 true ++ [false] ∧
      (runChecks (List.replicate 61 (0 : ℚ)) []).2
        = (List.replicate 61 (0 : ℚ)).take 60 ∧
      (check_rate_limit 61 (runChecks (List.replicate 61 (0 : ℚ)) []).2).1 = true) :=
  ⟨by simp, by intro a ha; rw [List.eq_of_mem_replicate ha]; norm_num, by norm_num,
    claim_C1_rate_limit_burst (List.replicate 61 (0 : ℚ)) 0 61
      (by simp) (by intro a ha; rw [List.eq_of_mem_replicate ha]; norm_num)
      (by norm_num)⟩

/-- C2: along any run of admission checks at non-decreasing instants that
starts from the empty window, immediately after each check every retained
timestamp `a` satisfies `now - a < 60` (where `now` is that check's
instant), and the window length never exceeds the budget of 60 — in
particular it is within the budget at the instant a new request is
admitted. -/
theorem claim_C2_window_invariant (pre : List ℚ) (t : ℚ)
    (hmono : List.Chain' (fun a b => a ≤ b) (pre ++ [t])) :
    (∀ a ∈ (runChecks (pre ++ [t]) []).2, t - a < 60) ∧
    (runChecks (pre ++ [t]) []).2.length ≤ 60 := by
  constructor
  · rw [runChecks_append]
    intro a ha
    simp only [runChecks_cons, runChecks_nil] at ha
    exact check_rate_limit_mem t _ a ha
  · exact runChecks_len _ [] (by simp [MAX_REQUESTS_PER_MINUTE])

/-- Witness for C2 at a concrete monotone run. -/
theorem claim_C2_window_invariant_witness :
    List.Chain' (fun a b => a ≤ b) (([0, 1] : List ℚ) ++ [2]) ∧
    ((∀ a ∈ (runChecks (([0, 1] : List ℚ) ++ [2]) []).2, (2 : ℚ) - a < 60) ∧
      (runChecks (([0, 1] : List ℚ) ++ [2]) []).2.length ≤ 60) :=
  ⟨by norm_num [List.chain'_cons], claim_C2_window_invariant [0, 1] 2
    (by norm_num [List.chain'_cons])⟩
/-- C3 counterexample: `json_serial` applied to the two-element list
`[1, 2]` raises (`pd.isna` yields a two-element boolean array whose truth
value is ambiguous), so the normalizer is not total on lists. -/
theorem claim_C3_counterexample :
    json_serial (PyVal.list [PyVal.int 1, PyVal.int 2]) =
      Except.error
        "The truth value of an array with more than one element is ambiguous. Use a.any() or a.all()" ∧
    exceptRuns (json_serial (PyVal.list [PyVal.int 1, PyVal.int 2])) = false := by
  constructor <;> rfl

/-- C3 (amended): `json_serial` is total on every non-list value — it never
raises, and any value it cannot represent precisely is downgraded to its
string rendering; on list (array) inputs with more than one element the
`pd.isna` truth-test raises. -/
theorem claim_C3_normalizer_total_on_scalars (v : PyVal)
    (h : v.isList = false) :
    exceptRuns (json_serial v) = true := by
  cases v with
  | none => rfl
  | bool b => cases b <;> rfl
  | int n => rfl
  | float f => cases f <;> rfl
  | npInt n => rfl
  | npFloat f => cases f <;> rfl
  | str s => rfl
  | datetime iso => rfl
  | timestamp iso => rfl
  | list xs => simp [PyVal.isList] at h
  | dict xs => rfl
  | obj r => rfl

/-- Witness for the amended C3 at a concrete non-list value. -/
theorem claim_C3_normalizer_total_on_scalars_witness :
    (PyVal.obj "<object>").isList = false ∧
    exceptRuns (json_serial (PyVal.obj "<object>")) = true :=
  ⟨rfl, claim_C3_normalizer_total_on_scalars (PyVal.obj "<object>") rfl⟩

/-- C4 counterexample: a numpy floating NaN is *not* mapped to explicit
null — the `np.floating` branch runs before the `pd.isna` test and narrows
it to a float NaN, which survives normalization (also fieldwise through the
`get_event_schedule` row loop). -/
theorem claim_C4_counterexample :
    json_serial (PyVal.npFloat PyFloat.nan) ≠ Except.ok JsonVal.none ∧
    json_serial (PyVal.npFloat PyFloat.nan) =
      Except.ok (JsonVal.float PyFloat.nan) ∧
    normalizeRow [("AirTemp", PyVal.npFloat PyFloat.nan)] =
      Except.ok [("AirTemp", JsonVal.float PyFloat.nan)] := by
  refine ⟨?_, rfl, rfl⟩
  intro h
  rw [show json_serial (PyVal.npFloat PyFloat.nan)
        = Except.ok (JsonVal.float PyFloat.nan) from rfl] at h
  simp at h

/-- C4 (amended): `None` and a plain Python float NaN are mapped to explicit
null and datetime/Timestamp values to ISO-8601 strings (no raw timestamp
object survives), but a numpy floating NaN is narrowed to a float NaN by the
numeric branch — which is checked before the missing-value test — and
survives normalization into the envelope data. -/
theorem claim_C4_sentinel_normalization :
    json_serial PyVal.none = Except.ok JsonVal.none ∧
    json_serial (PyVal.float PyFloat.nan) = Except.ok JsonVal.none ∧
    (∀ iso : String, json_serial (PyVal.datetime iso) = Except.ok (JsonVal.str iso)) ∧
    (∀ iso : String, json_serial (PyVal.timestamp iso) = Except.ok (JsonVal.str iso)) ∧
    json_serial (PyVal.npFloat PyFloat.nan) = Except.ok (JsonVal.float PyFloat.nan) ∧
    normalizeRow [("AirTemp", PyVal.npFloat PyFloat.nan)] =
      Except.ok [("AirTemp", JsonVal.float PyFloat.nan)] :=
  ⟨rfl, rfl, fun _ => rfl, fun _ => rfl, rfl, rfl⟩

/-! ## Dispatcher lemmas -/

/-- If the body raises, `f1_tool` returns the redacted error envelope, makes
no fetch, and touches the window only through the admission check. -/
theorem f1_tool_of_body_error (logLevel : String) (cy : ℤ) (bk : Backend)
    (name : String) (args : ArgMap) (now : ℚ) (w : List ℚ) (e : String)
    (hadm : (check_rate_limit now w).1 = true)
    (hbody : f1_body cy bk name args = .error e) :
    f1_tool logLevel cy bk name args now w =
      ⟨"error", if logLevel = "DEBUG" then "Error: " ++ e else GENERIC_ERROR,
        false, (check_rate_limit now w).2⟩ := by
  unfold f1_tool
  simp only [hbody, hadm, if_true]

/-- If the body returns an adapter result, `f1_tool` wraps exactly it. -/
theorem f1_tool_of_body_ok (logLevel : String) (cy : ℤ) (bk : Backend)
    (name : String) (args : ArgMap) (now : ℚ) (w : List ℚ) (r : F1Res)
    (hadm : (check_rate_limit now w).1 = true)
    (hbody : f1_body cy bk name args = .ok r) :
    f1_tool logLevel cy bk name args now w =
      ⟨r.status, r.message, r.fetched, (check_rate_limit now w).2⟩ := by
  unfold f1_tool
  simp only [hbody, hadm, if_true]

theorem get_event_schedule_status (cy y : ℤ) (fetch : Except String Unit) :
    (get_event_schedule cy y fetch).status = "success" ∨
    (get_event_schedule cy y fetch).status = "error" := by
  unfold get_event_schedule
  cases validate_year cy y <;> cases fetch <;> simp

theorem get_event_info_status (cy y : ℤ) (i : String)
    (fetch : Except String Unit) :
    (get_event_info cy y i fetch).status = "success" ∨
    (get_event_info cy y i fetch).status = "error" := by
  unfold get_event_info
  cases validate_year cy y <;> cases fetch <;> by_cases hi : i = "" <;> simp [hi]

theorem get_session_results_status (cy y : ℤ) (ev sn : String)
    (fetch : Except String Unit) :
    (get_session_results cy y ev sn fetch).status = "success" ∨
    (get_session_results cy y ev sn fetch).status = "error" := by
  unfold get_session_results
  cases validate_year cy y <;> cases fetch <;>
    by_cases hs : sn ∈ valid_sessions <;> simp [hs]

theorem get_driver_info_status (cy y : ℤ) (ev sn dr : String)
    (fetch : Except String Unit) :
    (get_driver_info cy y ev sn dr fetch).status = "success" ∨
    (get_driver_info cy y ev sn dr fetch).status = "error" := by
  unfold get_driver_info
  cases validate_year cy y <;> cases fetch <;> simp

theorem analyze_driver_performance_status (cy y : ℤ) (ev sn dr : String)
    (fetch : Except String Unit) :
    (analyze_driver_performance cy y ev sn dr fetch).status = "success" ∨
    (analyze_driver_performance cy y ev sn dr fetch).status = "error" := by
  unfold analyze_driver_performance
  cases validate_year cy y <;> cases fetch <;> simp

theorem compare_drivers_status (y : ℤ) (ev sn dr : String)
    (fetch : Except String Unit) :
    (compare_drivers y ev sn dr fetch).status = "success" ∨
    (compare_drivers y ev sn dr fetch).status = "error" := by
  unfold compare_drivers
  cases fetch <;> simp

theorem get_telemetry_status (y : ℤ) (ev sn dr : String) (lap : Option ℤ)
    (fetch : Except String Unit) :
    (get_telemetry y ev sn dr lap fetch).status = "success" ∨
    (get_telemetry y ev sn dr lap fetch).status = "error" := by
  unfold get_telemetry
  cases fetch <;> simp

theorem get_championship_standings_status (y : ℤ) (r : Option ℤ)
    (fetch : Except String Unit) :
    (get_championship_standings y r fetch).status = "success" ∨
    (get_championship_standings y r fetch).status = "error" := by
  unfold get_championship_standings
  cases fetch <;> simp

/-- Every adapter dictionary the body can hand back has a success or error
status (the adapters construct nothing else). -/
theorem f1_body_ok_status (cy : ℤ) (bk : Backend) (name : String)
    (args : ArgMap) (r : F1Res) (h : f1_body cy bk name args = .ok r) :
    r.status = "success" ∨ r.status = "error" := by
  unfold f1_body at h
  repeat' split at h
  all_goals
    first
      | exact Except.noConfusion h
      | (cases Except.ok.inj h
         ; first
           | (apply get_event_schedule_status ; done)
           | (apply get_event_info_status ; done)
           | (apply get_session_results_status ; done)
           | (apply get_driver_info_status ; done)
           | (apply analyze_driver_performance_status ; done)
           | (apply compare_drivers_status ; done)
           | (apply get_telemetry_status ; done)
           | (apply get_championship_standings_status ; done))

theorem sanitizeYear_baseArgs (y : ℤ) :
    sanitizeYear (baseArgs y) =
      if 1950 ≤ y ∧ y ≤ 2100 then Except.ok (some y)
      else Except.error ("Invalid year format: " ++ py_str (PyVal.int y)) := rfl

theorem sanitizeYear_baseArgs_ok (y : ℤ) (h1 : 1950 ≤ y) (h2 : y ≤ 2100) :
    sanitizeYear (baseArgs y) = Except.ok (some y) := by
  rw [sanitizeYear_baseArgs, if_pos ⟨h1, h2⟩]

theorem validate_year_ok (cy y : ℤ) (h1 : 1950 ≤ y) (h2 : y ≤ cy + 1) :
    validate_year cy y = Except.ok y := by
  unfold validate_year
  rw [if_neg (by omega : ¬(y < 1950 ∨ y > cy + 1))]

theorem validate_year_reject (cy y : ℤ) (h : cy + 1 < y) :
    validate_year cy y = Except.error ("Invalid year format: " ++ toString y) := by
  unfold validate_year
  rw [if_pos (by omega : y < 1950 ∨ y > cy + 1)]

theorem f1_body_schedule_eq (cy : ℤ) (bk : Backend) (y : ℤ)
    (hy : sanitizeYear (baseArgs y) = Except.ok (some y)) :
    f1_body cy bk "get_event_schedule" (baseArgs y) =
      Except.ok (get_event_schedule cy y bk.schedule) := by
  unfold f1_body; rw [hy]; rfl

theorem f1_body_event_info_eq (cy : ℤ) (bk : Backend) (y : ℤ)
    (hy : sanitizeYear (baseArgs y) = Except.ok (some y)) :
    f1_body cy bk "get_event_info" (baseArgs y) =
      Except.ok (get_event_info cy y "Monaco" bk.eventInfo) := by
  unfold f1_body; rw [hy]; rfl

theorem f1_body_session_results_eq (cy : ℤ) (bk : Backend) (y : ℤ)
    (hy : sanitizeYear (baseArgs y) = Except.ok (some y)) :
    f1_body cy bk "get_session_results" (baseArgs y) =
      Except.ok (get_session_results cy y "Monaco" "Race" bk.sessionResults) := by
  unfold f1_body; rw [hy]; rfl

theorem f1_body_driver_info_eq (cy : ℤ) (bk : Backend) (y : ℤ)
    (hy : sanitizeYear (baseArgs y) = Except.ok (some y)) :
    f1_body cy bk "get_driver_info" (baseArgs y) =
      Except.ok (get_driver_info cy y "Monaco" "Race" "HAM" bk.driverInfo) := by
  unfold f1_body; rw [hy]; rfl

theorem f1_body_performance_eq (cy : ℤ) (bk : Backend) (y : ℤ)
    (hy : sanitizeYear (baseArgs y) = Except.ok (some y)) :
    f1_body cy bk "analyze_driver_performance" (baseArgs y) =
      Except.ok (analyze_driver_performance cy y "Monaco" "Race" "HAM"
        bk.performance) := by
  unfold f1_body; rw [hy]; rfl

theorem f1_body_compare_eq (cy : ℤ) (bk : Backend) (y : ℤ)
    (hy : sanitizeYear (baseArgs y) = Except.ok (some y)) :
    f1_body cy bk "compare_drivers" (baseArgs y) =
      Except.ok (compare_drivers y "Monaco" "Race" "HAM,VER" bk.comparison) := by
  unfold f1_body; rw [hy]; rfl

theorem f1_body_telemetry_eq (cy : ℤ) (bk : Backend) (y : ℤ)
    (hy : sanitizeYear (baseArgs y) = Except.ok (some y)) :
    f1_body cy bk "get_telemetry" (baseArgs y) =
      Except.ok (get_telemetry y "Monaco" "Race" "HAM" Option.none
        bk.telemetry) := by
  unfold f1_body; rw [hy]; rfl

theorem f1_body_standings_eq (cy : ℤ) (bk : Backend) (y : ℤ)
    (hy : sanitizeYear (baseArgs y) = Except.ok (some y)) :
    f1_body cy bk "get_championship_standings" (baseArgs y) =
      Except.ok (get_championship_standings y Option.none bk.standings) := by
  unfold f1_body; rw [hy]; rfl

/-- C5 counterexample: invoking the unregistered tool `"get_nonexistent"`
with a malformed `year` argument produces the *year-format* error (the
common year validation runs before the unknown-tool check), so the envelope
message does not name the tool as unrecognized. -/
theorem claim_C5_counterexample :
    f1_tool "DEBUG" 2025 bkOk "get_nonexistent"
        [("year", PyVal.str "abc")] 0 [] =
      ⟨"error", "Error: Invalid year format: abc", false, [0]⟩ ∧
    "Error: Invalid year format: abc" ≠ "Error: Unknown tool: get_nonexistent" := by
  exact ⟨rfl, by decide⟩

/-- C5 (amended): for an unregistered tool name, provided the `year`
argument is absent or well-formed (otherwise the year check fires first),
the invocation raises `"Unknown tool: <name>"`, which is surfaced in the
envelope message only under the DEBUG log level (otherwise the fixed generic
message); no adapter call is made and the rate window is touched only by the
admission check. -/
theorem claim_C5_unknown_tool (logLevel : String) (cy : ℤ) (bk : Backend)
    (name : String) (args : ArgMap) (now : ℚ) (w : List ℚ)
    (hname : name ∉ registryNames) (hyear : yearArgOk args)
    (hadm : (check_rate_limit now w).1 = true) :
    f1_tool logLevel cy bk name args now w =
      ⟨"error",
        if logLevel = "DEBUG" then "Error: " ++ ("Unknown tool: " ++ name)
        else GENERIC_ERROR,
        false, (check_rate_limit now w).2⟩ := by
  have hbody : f1_body cy bk name args = .error ("Unknown tool: " ++ name) := by
    simp only [registryNames, List.mem_cons, List.not_mem_nil, or_false,
      not_or] at hname
    obtain ⟨n1, n2, n3, n4, n5, n6, n7, n8⟩ := hname
    unfold f1_body
    cases hy : List.lookup "year" args with
    | none =>
      simp only [sanitizeYear, hy, n1, n2, n3, n4, n5, n6, n7, n8, if_false]
    | some v =>
      have hv : ∃ y, py_int v = Except.ok y ∧ 1950 ≤ y ∧ y ≤ 2100 := by
        unfold yearArgOk at hyear
        rw [hy] at hyear
        exact hyear
      obtain ⟨y, hpy, hy1, hy2⟩ := hv
      simp only [sanitizeYear, hy, hpy, hy1, hy2, and_self, if_true,
        n1, n2, n3, n4, n5, n6, n7, n8, if_false]
  exact f1_tool_of_body_error logLevel cy bk name args now w _ hadm hbody

/-- Witness for the amended C5 at a concrete unregistered invocation. -/
theorem claim_C5_unknown_tool_witness :
    "get_nonexistent" ∉ registryNames ∧ yearArgOk [] ∧
    (check_rate_limit 0 []).1 = true ∧
    f1_tool "INFO" 2025 bkOk "get_nonexistent" [] 0 [] =
      ⟨"error",
        if "INFO" = "DEBUG" then "Error: " ++ ("Unknown tool: " ++ "get_nonexistent")
        else GENERIC_ERROR,
        false, (check_rate_limit 0 []).2⟩ :=
  ⟨by decide, trivial, rfl,
    claim_C5_unknown_tool "INFO" 2025 bkOk "get_nonexistent" [] 0 []
      (by decide) trivial rfl⟩

/-- C6 counterexample: a validation failure (session name `"Practice"`
outside the allowed set) under the non-verbose `INFO` log level yields the
fixed generic message, which names neither the field nor the constraint —
the detail is not surfaced verbatim in every configuration. -/
theorem claim_C6_counterexample :
    f1_tool "INFO" 2025 bkOk "get_session_results"
        [("year", PyVal.int 2023), ("event_identifier", PyVal.str "Monaco"),
         ("session_name", PyVal.str "Practice")] 0 [] =
      ⟨"error", "An error occurred while processing your request", false, [0]⟩ := by
  rfl

/-- C6 (amended): whenever the `try` body of `f1_tool` raises — in
particular on every argument-validation failure — the envelope message is
the underlying detail (prefixed `"Error: "`) exactly when the configured log
level is DEBUG, and the fixed generic message in every other configuration. -/
theorem claim_C6_error_redaction (logLevel : String) (cy : ℤ) (bk : Backend)
    (name : String) (args : ArgMap) (now : ℚ) (w : List ℚ) (e : String)
    (hadm : (check_rate_limit now w).1 = true)
    (hbody : f1_body cy bk name args = Except.error e) :
    (f1_tool logLevel cy bk name args now w).status = "error" ∧
    (f1_tool logLevel cy bk name args now w).message =
      (if logLevel = "DEBUG" then "Error: " ++ e else GENERIC_ERROR) := by
  rw [f1_tool_of_body_error logLevel cy bk name args now w e hadm hbody]
  exact ⟨rfl, rfl⟩

/-- Witness for the amended C6 at the invalid-session invocation. -/
theorem claim_C6_error_redaction_witness :
    (check_rate_limit 0 []).1 = true ∧
    f1_body 2025 bkOk "get_session_results"
        [("year", PyVal.int 2023), ("event_identifier", PyVal.str "Monaco"),
         ("session_name", PyVal.str "Practice")] =
      Except.error ("Invalid session_name: must be one of "
        ++ String.intercalate ", " valid_sessions) ∧
    ((f1_tool "INFO" 2025 bkOk "get_session_results"
        [("year", PyVal.int 2023), ("event_identifier", PyVal.str "Monaco"),
         ("session_name", PyVal.str "Practice")] 0 []).status = "error" ∧
      (f1_tool "INFO" 2025 bkOk "get_session_results"
        [("year", PyVal.int 2023), ("event_identifier", PyVal.str "Monaco"),
         ("session_name", PyVal.str "Practice")] 0 []).message =
        (if "INFO" = "DEBUG" then
          "Error: " ++ ("Invalid session_name: must be one of "
            ++ String.intercalate ", " valid_sessions)
        else GENERIC_ERROR)) :=
  ⟨rfl, rfl,
    claim_C6_error_redaction "INFO" 2025 bkOk "get_session_results"
      [("year", PyVal.int 2023), ("event_identifier", PyVal.str "Monaco"),
       ("session_name", PyVal.str "Practice")] 0 [] _ rfl rfl⟩

/-- C7 counterexample: `get_telemetry` with a year of `currentYear + 2`
(2027 with `currentYear = 2025`) passes the server-level `[1950, 2100]`
check, and the adapter performs only `int(year)` — no `validate_year` — so
the backend fetch happens and the invocation even succeeds: the year is not
rejected before any backend fetch. -/
theorem claim_C7_counterexample :
    (f1_tool "INFO" 2025 bkOk "get_telemetry" (baseArgs 2027) 0 []).fetched
        = true ∧
    (f1_tool "INFO" 2025 bkOk "get_telemetry" (baseArgs 2027) 0 []).status
        = "success" :=
  ⟨rfl, rfl⟩

/-- C7 (amended): with `1950 ≤ currentYear ≤ 2098`, a year of 1949 is
rejected with no fetch by every registered tool (the server-level range
check); 1950 and `currentYear + 1` are accepted by every tool (the fetch is
reached); but `currentYear + 2` is rejected before any backend fetch only by
the five tools whose adapters call `validate_year` — `compare_drivers`,
`get_telemetry` and `get_championship_standings` pass it straight to the
backend fetch. -/
theorem claim_C7_year_boundaries (cy : ℤ) (bk : Backend)
    (hcy1 : 1950 ≤ cy) (hcy2 : cy ≤ 2098) :
    (∀ name ∈ registryNames,
       (f1_tool "INFO" cy bk name (baseArgs 1949) 0 []).status = "error" ∧
       (f1_tool "INFO" cy bk name (baseArgs 1949) 0 []).fetched = false) ∧
    (∀ name ∈ registryNames,
       (f1_tool "INFO" cy bk name (baseArgs 1950) 0 []).fetched = true) ∧
    (∀ name ∈ registryNames,
       (f1_tool "INFO" cy bk name (baseArgs (cy + 1)) 0 []).fetched = true) ∧
    (∀ name ∈ validatingYearTools,
       (f1_tool "INFO" cy bk name (baseArgs (cy + 2)) 0 []).status = "error" ∧
       (f1_tool "INFO" cy bk name (baseArgs (cy + 2)) 0 []).fetched = false) ∧
    (∀ name ∈ fetchFirstYearTools,
       (f1_tool "INFO" cy bk name (baseArgs (cy + 2)) 0 []).fetched = true) := by
  have hadm : (check_rate_limit 0 []).1 = true := rfl
  have hs1949 : sanitizeYear (baseArgs 1949) =
      Except.error ("Invalid year format: " ++ py_str (PyVal.int 1949)) := by
    rw [sanitizeYear_baseArgs]
    norm_num
  have hs1950 := sanitizeYear_baseArgs_ok 1950 (by norm_num) (by norm_num)
  have hscy1 := sanitizeYear_baseArgs_ok (cy + 1) (by omega) (by omega)
  have hscy2 := sanitizeYear_baseArgs_ok (cy + 2) (by omega) (by omega)
  have hv1950 := validate_year_ok cy 1950 (by norm_num) (by omega)
  have hvcy1 := validate_year_ok cy (cy + 1) (by omega) (by omega)
  have hvcy2 := validate_year_reject cy (cy + 2) (by omega)
  refine ⟨?_, ?_, ?_, ?_, ?_⟩
  · -- 1949: the server range check fires for every tool
    intro name hn
    have hbody : f1_body cy bk name (baseArgs 1949) =
        Except.error ("Invalid year format: " ++ py_str (PyVal.int 1949)) := by
      unfold f1_body
      rw [hs1949]
    rw [f1_tool_of_body_error "INFO" cy bk name (baseArgs 1949) 0 [] _
      hadm hbody]
    exact ⟨rfl, rfl⟩
  · -- 1950: accepted — every tool reaches its backend fetch
    intro name hn
    simp only [registryNames, List.mem_cons, List.not_mem_nil, or_false] at hn
    rcases hn with rfl | rfl | rfl | rfl | rfl | rfl | rfl | rfl
    · rw [f1_tool_of_body_ok _ _ _ _ _ _ _ _ hadm
        (f1_body_schedule_eq cy bk 1950 hs1950)]
      show (get_event_schedule cy 1950 bk.schedule).fetched = true
      unfold get_event_schedule
      rw [hv1950]
      cases bk.schedule <;> rfl
    · rw [f1_tool_of_body_ok _ _ _ _ _ _ _ _ hadm
        (f1_body_event_info_eq cy bk 1950 hs1950)]
      show (get_event_info cy 1950 "Monaco" bk.eventInfo).fetched = true
      unfold get_event_info
      rw [hv1950]
      cases bk.eventInfo <;> rfl
    · rw [f1_tool_of_body_ok _ _ _ _ _ _ _ _ hadm
        (f1_body_session_results_eq cy bk 1950 hs1950)]
      show (get_session_results cy 1950 "Monaco" "Race"
        bk.sessionResults).fetched = true
      unfold get_session_results
      rw [hv1950]
      cases bk.sessionResults <;> rfl
    · rw [f1_tool_of_body_ok _ _ _ _ _ _ _ _ hadm
        (f1_body_driver_info_eq cy bk 1950 hs1950)]
      show (get_driver_info cy 1950 "Monaco" "Race" "HAM"
        bk.driverInfo).fetched = true
      unfold get_driver_info
      rw [hv1950]
      cases bk.driverInfo <;> rfl
    · rw [f1_tool_of_body_ok _ _ _ _ _ _ _ _ hadm
        (f1_body_performance_eq cy bk 1950 hs1950)]
      show (analyze_driver_performance cy 1950 "Monaco" "Race" "HAM"
        bk.performance).fetched = true
      unfold analyze_driver_performance
      rw [hv1950]
      cases bk.performance <;> rfl
    · rw [f1_tool_of_body_ok _ _ _ _ _ _ _ _ hadm
        (f1_body_compare_eq cy bk 1950 hs1950)]
      show (compare_drivers 1950 "Monaco" "Race" "HAM,VER"
        bk.comparison).fetched = true
      unfold compare_drivers
      cases bk.comparison <;> rfl
    · rw [f1_tool_of_body_ok _ _ _ _ _ _ _ _ hadm
        (f1_body_telemetry_eq cy bk 1950 hs1950)]
      show (get_telemetry 1950 "Monaco" "Race" "HAM" Option.none
        bk.telemetry).fetched = true
      unfold get_telemetry
      cases bk.telemetry <;> rfl
    · rw [f1_tool_of_body_ok _ _ _ _ _ _ _ _ hadm
        (f1_body_standings_eq cy bk 1950 hs1950)]
      show (get_championship_standings 1950 Option.none
        bk.standings).fetched = true
      unfold get_championship_standings
      cases bk.standings <;> rfl
  · -- currentYear + 1: accepted — every tool reaches its backend fetch
    intro name hn
    simp only [registryNames, List.mem_cons, List.not_mem_nil, or_false] at hn
    rcases hn with rfl | rfl | rfl | rfl | rfl | rfl | rfl | rfl
    · rw [f1_tool_of_body_ok _ _ _ _ _ _ _ _ hadm
        (f1_body_schedule_eq cy bk (cy + 1) hscy1)]
      show (get_event_schedule cy (cy + 1) bk.schedule).fetched = true
      unfold get_event_schedule
      rw [hvcy1]
      cases bk.schedule <;> rfl
    · rw [f1_tool_of_body_ok _ _ _ _ _ _ _ _ hadm
        (f1_body_event_info_eq cy bk (cy + 1) hscy1)]
      show (get_event_info cy (cy + 1) "Monaco" bk.eventInfo).fetched = true
      unfold get_event_info
      rw [hvcy1]
      cases bk.eventInfo <;> rfl
    · rw [f1_tool_of_body_ok _ _ _ _ _ _ _ _ hadm
        (f1_body_session_results_eq cy bk (cy + 1) hscy1)]
      show (get_session_results cy (cy + 1) "Monaco" "Race"
        bk.sessionResults).fetched = true
      unfold get_session_results
      rw [hvcy1]
      cases bk.sessionResults <;> rfl
    · rw [f1_tool_of_body_ok _ _ _ _ _ _ _ _ hadm
        (f1_body_driver_info_eq cy bk (cy + 1) hscy1)]
      show (get_driver_info cy (cy + 1) "Monaco" "Race" "HAM"
        bk.driverInfo).fetched = true
      unfold get_driver_info
      rw [hvcy1]
      cases bk.driverInfo <;> rfl
    · rw [f1_tool_of_body_ok _ _ _ _ _ _ _ _ hadm
        (f1_body_performance_eq cy bk (cy + 1) hscy1)]
      show (analyze_driver_performance cy (cy + 1) "Monaco" "Race" "HAM"
        bk.performance).fetched = true
      unfold analyze_driver_performance
      rw [hvcy1]
      cases bk.performance <;> rfl
    · rw [f1_tool_of_body_ok _ _ _ _ _ _ _ _ hadm
        (f1_body_compare_eq cy bk (cy + 1) hscy1)]
      show (compare_drivers (cy + 1) "Monaco" "Race" "HAM,VER"
        bk.comparison).fetched = true
      unfold compare_drivers
      cases bk.comparison <;> rfl
    · rw [f1_tool_of_body_ok _ _ _ _ _ _ _ _ hadm
        (f1_body_telemetry_eq cy bk (cy + 1) hscy1)]
      show (get_telemetry (cy + 1) "Monaco" "Race" "HAM" Option.none
        bk.telemetry).fetched = true
      unfold get_telemetry
      cases bk.telemetry <;> rfl
    · rw [f1_tool_of_body_ok _ _ _ _ _ _ _ _ hadm
        (f1_body_standings_eq cy bk (cy + 1) hscy1)]
      show (get_championship_standings (cy + 1) Option.none
        bk.standings).fetched = true
      unfold get_championship_standings
      cases bk.standings <;> rfl
  · -- currentYear + 2 on the validating tools: adapter-level rejection,
    -- no fetch
    intro name hn
    simp only [validatingYearTools, List.mem_cons, List.not_mem_nil,
      or_false] at hn
    rcases hn with rfl | rfl | rfl | rfl | rfl
    · rw [f1_tool_of_body_ok _ _ _ _ _ _ _ _ hadm
        (f1_body_schedule_eq cy bk (cy + 2) hscy2)]
      refine ⟨?_, ?_⟩ <;>
        (show _ ; unfold get_event_schedule; rw [hvcy2])
    · rw [f1_tool_of_body_ok _ _ _ _ _ _ _ _ hadm
        (f1_body_event_info_eq cy bk (cy + 2) hscy2)]
      refine ⟨?_, ?_⟩ <;>
        (show _ ; unfold get_event_info; rw [hvcy2])
    · rw [f1_tool_of_body_ok _ _ _ _ _ _ _ _ hadm
        (f1_body_session_results_eq cy bk (cy + 2) hscy2)]
      refine ⟨?_, ?_⟩ <;>
        (show _ ; unfold get_session_results; rw [hvcy2])
    · rw [f1_tool_of_body_ok _ _ _ _ _ _ _ _ hadm
        (f1_body_driver_info_eq cy bk (cy + 2) hscy2)]
      refine ⟨?_, ?_⟩ <;>
        (show _ ; unfold get_driver_info; rw [hvcy2])
    · rw [f1_tool_of_body_ok _ _ _ _ _ _ _ _ hadm
        (f1_body_performance_eq cy bk (cy + 2) hscy2)]
      refine ⟨?_, ?_⟩ <;>
        (show _ ; unfold analyze_driver_performance; rw [hvcy2])
  · -- currentYear + 2 on the fetch-first tools: the backend fetch happens
    intro name hn
    simp only [fetchFirstYearTools, List.mem_cons, List.not_mem_nil,
      or_false] at hn
    rcases hn with rfl | rfl | rfl
    · rw [f1_tool_of_body_ok _ _ _ _ _ _ _ _ hadm
        (f1_body_compare_eq cy bk (cy + 2) hscy2)]
      show (compare_drivers (cy + 2) "Monaco" "Race" "HAM,VER"
        bk.comparison).fetched = true
      unfold compare_drivers
      cases bk.comparison <;> rfl
    · rw [f1_tool_of_body_ok _ _ _ _ _ _ _ _ hadm
        (f1_body_telemetry_eq cy bk (cy + 2) hscy2)]
      show (get_telemetry (cy + 2) "Monaco" "Race" "HAM" Option.none
        bk.telemetry).fetched = true
      unfold get_telemetry
      cases bk.telemetry <;> rfl
    · rw [f1_tool_of_body_ok _ _ _ _ _ _ _ _ hadm
        (f1_body_standings_eq cy bk (cy + 2) hscy2)]
      show (get_championship_standings (cy + 2) Option.none
        bk.standings).fetched = true
      unfold get_championship_standings
      cases bk.standings <;> rfl

/-- Witness for the amended C7 at `currentYear = 2025` with an
all-successful backend. -/
theorem claim_C7_year_boundaries_witness :
    (1950 : ℤ) ≤ 2025 ∧ (2025 : ℤ) ≤ 2098 ∧
    ((∀ name ∈ registryNames,
        (f1_tool "INFO" 2025 bkOk name (baseArgs 1949) 0 []).status = "error" ∧
        (f1_tool "INFO" 2025 bkOk name (baseArgs 1949) 0 []).fetched = false) ∧
      (∀ name ∈ registryNames,
        (f1_tool "INFO" 2025 bkOk name (baseArgs 1950) 0 []).fetched = true) ∧
      (∀ name ∈ registryNames,
        (f1_tool "INFO" 2025 bkOk name (baseArgs (2025 + 1)) 0 []).fetched
          = true) ∧
      (∀ name ∈ validatingYearTools,
        (f1_tool "INFO" 2025 bkOk name (baseArgs (2025 + 2)) 0 []).status
            = "error" ∧
        (f1_tool "INFO" 2025 bkOk name (baseArgs (2025 + 2)) 0 []).fetched
            = false) ∧
      (∀ name ∈ fetchFirstYearTools,
        (f1_tool "INFO" 2025 bkOk name (baseArgs (2025 + 2)) 0 []).fetched
          = true)) :=
  ⟨by norm_num, by norm_num,
    claim_C7_year_boundaries 2025 bkOk (by norm_num) (by norm_num)⟩

/-- C8 counterexample: in the MLB server, a backend failure inside
`get_daily_schedule` is logged and **re-raised** — the exception propagates
out of the tool handler instead of being converted into an error envelope. -/
theorem claim_C8_counterexample :
    (MlbServer.get_daily_schedule "2024" "06" "01"
        (fun _ => Except.error "HTTP status 500")).2 =
      Except.error "HTTP status 500" ∧
    exceptRuns (MlbServer.get_daily_schedule "2024" "06" "01"
        (fun _ => Except.error "HTTP status 500")).2 = false :=
  ⟨rfl, rfl⟩

/-- C8 (amended): in the F1 server every failure is caught at the `f1_tool`
boundary — the invocation always yields exactly one envelope whose status is
`"success"` or `"error"`, and its only effect on shared state is the
admission check's effect on the rate window; in the MLB and NBA servers,
however, each tool handler logs and re-raises, so a backend failure
propagates out of the handler as an exception. -/
theorem claim_C8_failure_containment :
    (∀ (logLevel : String) (cy : ℤ) (bk : Backend) (name : String)
        (args : ArgMap) (now : ℚ) (w : List ℚ),
        ((f1_tool logLevel cy bk name args now w).status = "success" ∨
          (f1_tool logLevel cy bk name args now w).status = "error") ∧
        (f1_tool logLevel cy bk name args now w).window =
          (check_rate_limit now w).2) ∧
    (∀ year month day e,
        (MlbServer.get_daily_schedule year month day
            (fun _ => Except.error e)).2 = Except.error e) ∧
    (∀ r e,
        (NbaServer.get_injuries r (fun _ => Except.error e)).2
          = Except.error e) := by
  refine ⟨?_, fun _ _ _ _ => rfl, fun _ _ => rfl⟩
  intro logLevel cy bk name args now w
  by_cases h : (check_rate_limit now w).1 = true
  · cases hb : f1_body cy bk name args with
    | error e =>
      rw [f1_tool_of_body_error logLevel cy bk name args now w e h hb]
      exact ⟨Or.inr rfl, rfl⟩
    | ok r =>
      rw [f1_tool_of_body_ok logLevel cy bk name args now w r h hb]
      exact ⟨f1_body_ok_status cy bk name args r hb, rfl⟩
  · have hfalse : (check_rate_limit now w).1 = false := by
      cases hc : (check_rate_limit now w).1
      · rfl
      · exact absurd hc h
    unfold f1_tool
    simp only [hfalse, Bool.false_eq_true, if_false]
    exact ⟨Or.inr (by trivial), by trivial⟩

/-- C9 counterexample: an upstream daily-schedule payload whose league alias
is `"WNBA"` is returned as a *success* with alias, name and id silently
rewritten to the fixed NBA values — the mismatch is not surfaced as an
error. -/
theorem claim_C9_counterexample :
    (NbaServer.get_daily_schedule "2024" "06" "01"
        (fun _ => Except.ok ⟨some ⟨"wnba-league-id", "WNBA", "WNBA"⟩,
          "games-payload"⟩)).2 =
      Except.ok (⟨some ⟨NbaServer.NBA_LEAGUE_ID, "NBA", "NBA"⟩,
        "games-payload"⟩ : NbaServer.ScheduleData) :=
  rfl

/-- C9 (amended): whenever the upstream daily-schedule response carries a
league whose alias differs from `"NBA"`, the NBA adapter silently rewrites
the league's alias, name and id to the fixed expected values and returns the
payload as a success; no error outcome is produced for the mismatch. -/
theorem claim_C9_league_rewrite (year month day : String)
    (data : NbaServer.ScheduleData) (lg : NbaServer.League)
    (up : String → Except String NbaServer.ScheduleData)
    (hup : up (NbaServer.schedulePath year month day) = Except.ok data)
    (hlg : data.league? = some lg) (hne : lg.«alias» ≠ "NBA") :
    (NbaServer.get_daily_schedule year month day up).2 =
      Except.ok { data with
        league? := some ⟨NbaServer.NBA_LEAGUE_ID, "NBA", "NBA"⟩ } := by
  unfold NbaServer.get_daily_schedule
  simp only [hup, hlg]
  rw [if_neg hne]

/-- Witness for the amended C9 at a concrete mismatching payload. -/
theorem claim_C9_league_rewrite_witness :
    (fun _ : String => (Except.ok (⟨some ⟨"wnba-league-id", "WNBA", "WNBA"⟩,
        "games-payload"⟩ : NbaServer.ScheduleData) :
          Except String NbaServer.ScheduleData))
      (NbaServer.schedulePath "2024" "06" "01") =
        (Except.ok (⟨some ⟨"wnba-league-id", "WNBA", "WNBA"⟩,
          "games-payload"⟩ : NbaServer.ScheduleData) :
            Except String NbaServer.ScheduleData) ∧
    (⟨some ⟨"wnba-league-id", "WNBA", "WNBA"⟩,
        "games-payload"⟩ : NbaServer.ScheduleData).league? =
      some ⟨"wnba-league-id", "WNBA", "WNBA"⟩ ∧
    ("WNBA" : String) ≠ "NBA" ∧
    (NbaServer.get_daily_schedule "2024" "06" "01"
        (fun _ => Except.ok (⟨some ⟨"wnba-league-id", "WNBA", "WNBA"⟩,
          "games-payload"⟩ : NbaServer.ScheduleData))).2 =
      Except.ok (⟨some ⟨NbaServer.NBA_LEAGUE_ID, "NBA", "NBA"⟩,
        "games-payload"⟩ : NbaServer.ScheduleData) :=
  ⟨rfl, rfl, by decide,
    claim_C9_league_rewrite "2024" "06" "01" _ _ _ rfl rfl (by decide)⟩

/-- C10: the declared `random_string` parameter of the NBA `get_injuries`
tool is never read: any two values of it produce the same request path and
the same result against the same upstream behavior. -/
theorem claim_C10_random_string_noninterference (r1 r2 : String)
    (upstream : String → Except String String) :
    NbaServer.get_injuries r1 upstream = NbaServer.get_injuries r2 upstream :=
  rfl
